import Mathlib

/-!
Shallow embedding of the core of the runtime safety/containment control plane:
the Atomic Snapshot Generator (`components/system_core/ASG_Atomic_Snapshot_Generator.rs`),
the Halt Orchestrator (`core/orchestration/fsmu_halt_orchestrator.rs`),
the Dynamic Constraint Scheduler (`utility/dynamic_constraint_scheduler.rs`)
and the two background compiler loops
(`utility/constraint_management/async_compiler.rs`,
`service/constraint_compiler_daemon.rs`).

Machine integers are modelled as `Nat` with explicit `% 2 ^ w` at the points
where the Rust code performs a narrowing cast; byte strings are `List Nat`
(each element a byte value); Rust `Result` is Lean `Except`.  Injected
capabilities (capture provider, hasher factory, halt agent, wall clocks) are
modelled as explicit environment records: each fallible or timing-dependent
call of the Rust code reads the corresponding field of the environment.
-/

/-- Decidable equality for `Except`, so concrete runs of the embedded
operations can be checked by evaluation. -/
instance {ε α : Type} [DecidableEq ε] [DecidableEq α] :
    DecidableEq (Except ε α)
  | .error x, .error y =>
      if h : x = y then .isTrue (by rw [h])
      else .isFalse (fun hc => h (Except.error.inj hc))
  | .error _, .ok _ => .isFalse (fun hc => Except.noConfusion hc)
  | .ok _, .error _ => .isFalse (fun hc => Except.noConfusion hc)
  | .ok x, .ok y =>
      if h : x = y then .isTrue (by rw [h])
      else .isFalse (fun hc => h (Except.ok.inj hc))

namespace ASG

/-- `INTEGRITY_HASH_SIZE` from ASG_Atomic_Snapshot_Generator.rs (64 bytes). -/
def INTEGRITY_HASH_SIZE : Nat := 64

/-- `MAX_SNAPSHOT_DURATION` (5 ms), expressed in nanoseconds:
`Duration::from_micros(5000)`. -/
def MAX_SNAPSHOT_DURATION_NS : Nat := 5000000

/-- `RSCM_PACKAGE_VERSION` (u16). -/
def RSCM_PACKAGE_VERSION : Nat := 1

/-- `CONTEXT_FLAG_GSEP_C` (u32, 0x42). -/
def CONTEXT_FLAG_GSEP_C : Nat := 0x42

/-- `HASHING_PROTOCOL_ID` (u8, 0x01). -/
def HASHING_PROTOCOL_ID : Nat := 0x01

/-- `SnapshotError` from ASG_Atomic_Snapshot_Generator.rs. -/
inductive SnapshotError where
  | PrivilegeRequired
  | MemoryCaptureFailed
  | Timeout (actual_duration_ns : Nat)
  | IntegrityHashingFailed
  | HashingOutputMismatch (expected actual : Nat)
  | MetadataEncodingFailed
deriving DecidableEq, Repr

/-- Little-endian byte encoding of a machine integer of `width` bytes:
models Rust `to_le_bytes` on uN (a value within range emits exactly its
little-endian bytes; byte `i` is `n / 256 ^ i % 256`). -/
def leBytes (width n : Nat) : List Nat :=
  (List.range width).map (fun i => n / 256 ^ i % 256)

/-- `RscmPackageMetadata`: the struct serialized as canonical hash input. -/
structure RscmPackageMetadata where
  capture_version : Nat            -- u16
  absolute_capture_ts_epoch_ns : Nat  -- u64
  context_flags : Nat              -- u32
  hashing_protocol_id : Nat        -- u8
  volatile_data_size : Nat         -- u64
deriving DecidableEq, Repr

/-- `RscmPackageMetadata::to_canonical_bytes`: serializes, little-endian, in
the source's order — capture_version (2) ‖ timestamp (8) ‖ context_flags (4)
‖ hashing_protocol_id (1) ‖ volatile_data_size (8) — then checks the total
length is 23, failing `MetadataEncodingFailed` otherwise. -/
def RscmPackageMetadata.to_canonical_bytes (m : RscmPackageMetadata) :
    Except SnapshotError (List Nat) :=
  let bytes :=
    leBytes 2 m.capture_version ++
    leBytes 8 m.absolute_capture_ts_epoch_ns ++
    leBytes 4 m.context_flags ++
    leBytes 1 m.hashing_protocol_id ++
    leBytes 8 m.volatile_data_size
  if bytes.length ≠ 23 then .error .MetadataEncodingFailed
  else .ok bytes

/-- `RscmPackage`: the immutable snapshot package.  The stack trace is kept
as its byte sequence (`trace.as_bytes()` is what is hashed). -/
structure RscmPackage where
  capture_version : Nat            -- u16
  absolute_capture_ts_epoch_ns : Nat  -- u64
  capture_latency_ns : Nat         -- u64
  integrity_hash : List Nat        -- [u8; 64]
  volatile_memory_dump : List Nat  -- Vec<u8>
  stack_trace : List Nat           -- String (UTF-8 bytes)
  context_flags : Nat              -- u32
  hashing_protocol_id : Nat        -- u8
  volatile_data_size : Nat         -- u64
deriving DecidableEq, Repr

/-- Environment of one `generate_rscm_snapshot` call: the injected
`SystemCaptureAPI` implementation, the CRoT hasher, and the wall clock.
`hash` is the abstract fixed-output hash: `finalize` applied to the whole
byte stream fed through `update` (the concrete algorithm is an external
collaborator); `.error` models a failing `new_hasher_fixed_output` /
`finalize`.  `elapsed_ns` is the value `start_time.elapsed()` would show at
the measurement point after hashing. -/
structure CaptureEnv where
  check_privilege : Bool
  current_epoch_ns : Nat
  volatile_memory : Except Unit (List Nat)
  execution_stack : List Nat
  hasher_init_ok : Bool
  hash : List Nat → Except Unit (List Nat)
  elapsed_ns : Nat

/-- `generate_rscm_snapshot`, step for step: privilege check, timestamp,
volatile-memory capture, stack capture, hasher construction, streaming the
dump ‖ trace ‖ canonical metadata, finalize, output-size check, 5 ms
temporal check, package construction. -/
def generate_rscm_snapshot (env : CaptureEnv) :
    Except SnapshotError RscmPackage :=
  if env.check_privilege = false then .error .PrivilegeRequired
  else
    let absolute_ts := env.current_epoch_ns
    match env.volatile_memory with
    | .error _ => .error .MemoryCaptureFailed
    | .ok vm_dump =>
      let trace := env.execution_stack
      let context_flags := CONTEXT_FLAG_GSEP_C
      let volatile_data_size := vm_dump.length
      if env.hasher_init_ok = false then .error .IntegrityHashingFailed
      else
        let metadata : RscmPackageMetadata :=
          { capture_version := RSCM_PACKAGE_VERSION
            absolute_capture_ts_epoch_ns := absolute_ts
            context_flags := context_flags
            hashing_protocol_id := HASHING_PROTOCOL_ID
            volatile_data_size := volatile_data_size }
        match metadata.to_canonical_bytes with
        | .error e => .error e
        | .ok metadata_bytes =>
          match env.hash (vm_dump ++ trace ++ metadata_bytes) with
          | .error _ => .error .IntegrityHashingFailed
          | .ok raw_hash =>
            if raw_hash.length ≠ INTEGRITY_HASH_SIZE then
              .error (.HashingOutputMismatch INTEGRITY_HASH_SIZE raw_hash.length)
            else
              let latency_ns := env.elapsed_ns
              if latency_ns > MAX_SNAPSHOT_DURATION_NS then
                .error (.Timeout (latency_ns % 2 ^ 64))
              else
                .ok { capture_version := RSCM_PACKAGE_VERSION
                      absolute_capture_ts_epoch_ns := absolute_ts
                      capture_latency_ns := latency_ns % 2 ^ 64
                      integrity_hash := raw_hash
                      volatile_memory_dump := vm_dump
                      stack_trace := trace
                      context_flags := context_flags
                      hashing_protocol_id := HASHING_PROTOCOL_ID
                      volatile_data_size := volatile_data_size }

end ASG

namespace DCS

/-- `PolicyViolation` from dynamic_constraint_scheduler.rs. -/
structure PolicyViolation where
  message : String
deriving DecidableEq, Repr

/-- `IntegrityPolicy` (unit placeholder struct in the source). -/
structure IntegrityPolicy where
deriving DecidableEq, Repr

/-- `ACVM_DEFINITION` constant. -/
def ACVM_DEFINITION : String := "placeholder_acvm_def"

/-- `GAX_POLICIES` constant. -/
def GAX_POLICIES : String := "placeholder_gax_policies"

/-- `BoundaryCheckDefinition`: policy_id (u16), target_offset (u64),
expected_range ((u64, u64)). -/
structure BoundaryCheckDefinition where
  policy_id : Nat
  target_offset : Nat
  expected_range : Nat × Nat
deriving DecidableEq, Repr

/-- `CompiledConstraintBlock`. -/
structure CompiledConstraintBlock where
  compilation_version : Nat    -- u64
  gax_ii_boundary_checks : List BoundaryCheckDefinition
  gax_iii_input_integrity : List IntegrityPolicy
deriving DecidableEq, Repr

/-- `ConstraintError` from dynamic_constraint_scheduler.rs. -/
inductive ConstraintError where
  | CompilationFailed (msg : String)
  | MissingActiveSet
  | ExternalDependencyFailure (msg : String)
  | SchedulerIntegrityFailure (msg : String)
deriving DecidableEq, Repr

/-- `HashMap::get` on the cache, modelled as an association list keyed by
`ConstraintSetId` (u64). -/
def cacheLookup : List (Nat × CompiledConstraintBlock) → Nat →
    Option CompiledConstraintBlock
  | [], _ => none
  | (k, v) :: rest, id => if k = id then some v else cacheLookup rest id

/-- `HashMap::insert` on the cache: replaces the entry with the same key,
otherwise appends. -/
def cacheInsert : List (Nat × CompiledConstraintBlock) → Nat →
    CompiledConstraintBlock → List (Nat × CompiledConstraintBlock)
  | [], id, b => [(id, b)]
  | (k, v) :: rest, id, b =>
      if k = id then (id, b) :: rest else (k, v) :: cacheInsert rest id b

/-- `DynamicConstraintScheduler` state: active set id, the constraint cache
(`HashMap<ConstraintSetId, Arc<CompiledConstraintBlock>>`), and the direct
active block reference.  `Arc` sharing is modelled by value. -/
structure DynamicConstraintScheduler where
  active_set_id : Nat
  constraint_cache : List (Nat × CompiledConstraintBlock)
  active_block_ref : CompiledConstraintBlock
deriving DecidableEq, Repr

/-- `DynamicConstraintScheduler::compile_constraints`: fails
`CompilationFailed` on empty input, otherwise yields a block carrying the
given version (the simulated compilation emits empty check lists). -/
def compile_constraints (acvm_def gax_policies : String) (version : Nat) :
    Except ConstraintError CompiledConstraintBlock :=
  if acvm_def.isEmpty || gax_policies.isEmpty then
    .error (.CompilationFailed "Input definitions are empty or invalid.")
  else
    .ok { compilation_version := version
          gax_ii_boundary_checks := []
          gax_iii_input_integrity := [] }

/-- `DynamicConstraintScheduler::initialize` (renamed: Lean reserves the
bare word): compiles the built-in definitions at version 1, caches the block
under `current_state_id` and makes it active. -/
def initializeScheduler (current_state_id : Nat) :
    Except ConstraintError DynamicConstraintScheduler :=
  match compile_constraints ACVM_DEFINITION GAX_POLICIES 1 with
  | .error e => .error e
  | .ok initial_block =>
      .ok { active_set_id := current_state_id
            constraint_cache := [(current_state_id, initial_block)]
            active_block_ref := initial_block }

/-- `active_constraints`: O(1) dereference of the active block. -/
def active_constraints (s : DynamicConstraintScheduler) :
    CompiledConstraintBlock :=
  s.active_block_ref

/-- `execute_s02_s06_integrity_sweep`: fails `PolicyViolation` when the
active block has `compilation_version == 0`, otherwise succeeds. -/
def execute_s02_s06_integrity_sweep (s : DynamicConstraintScheduler)
    (_snapshot : List Nat) : Except PolicyViolation Unit :=
  let constraints := active_constraints s
  if constraints.compilation_version = 0 then
    .error ⟨"Constraint integrity check failed (Version 0)."⟩
  else
    .ok ()

/-- `switch_active_set` (`&mut self` + `Result<(), _>`, modelled as
state-passing): on a cached id, republishes the active reference and id; on
an unknown id, returns `MissingActiveSet` with the state untouched. -/
def switch_active_set (s : DynamicConstraintScheduler) (new_set_id : Nat) :
    DynamicConstraintScheduler × Except ConstraintError Unit :=
  match cacheLookup s.constraint_cache new_set_id with
  | some arc_block =>
      ({ s with active_block_ref := arc_block, active_set_id := new_set_id },
       .ok ())
  | none => (s, .error .MissingActiveSet)

/-- `inject_compiled_set`: inserts or overwrites a cache entry; never
touches the active id or the active reference. -/
def inject_compiled_set (s : DynamicConstraintScheduler) (set_id : Nat)
    (block : CompiledConstraintBlock) : DynamicConstraintScheduler :=
  { s with constraint_cache := cacheInsert s.constraint_cache set_id block }

end DCS

namespace Compiler

open DCS

/-- `CompilationTask` from async_compiler.rs. -/
inductive CompilationTask where
  | CompileDefinition (set_id : Nat) (noir_bytecode_or_acvm_ir : String)
      (gax_policies : String)
  | Shutdown
deriving DecidableEq, Repr

/-- The compile job the `CompilerEngine` loop runs per `CompileDefinition`
(the `spawn_blocking` closure): fails `CompilationFailed` on an empty
definition, otherwise yields a block with `compilation_version: 3` (the
literal the source emits on every simulated compilation). -/
def engineCompileJob (noir_bytecode_or_acvm_ir : String)
    (_gax_policies : String) :
    Except ConstraintError CompiledConstraintBlock :=
  if noir_bytecode_or_acvm_ir.isEmpty then
    .error (.CompilationFailed "Input definition missing or invalid.")
  else
    .ok { compilation_version := 3
          gax_ii_boundary_checks := []
          gax_iii_input_integrity := [] }

/-- `CompilerEngine::run`: drains the task queue in order, runs each compile
job and publishes `(set_id, result)` on the result channel; `Shutdown` stops
the loop.  The result channel is modelled as staying open (its receiver
alive), so the loop's output is the list of published results in order; the
blocking job is pure here, so the panic-recovery arm
(`ExternalDependencyFailure`) is unreachable in the model. -/
def CompilerEngine.run (tasks : List CompilationTask) :
    List (Nat × Except ConstraintError CompiledConstraintBlock) :=
  match tasks with
  | [] => []
  | .Shutdown :: _ => []
  | .CompileDefinition set_id noir gax :: rest =>
      (set_id, engineCompileJob noir gax) :: CompilerEngine.run rest

/-- `CompilerCommand` from constraint_compiler_daemon.rs. -/
structure CompilerCommand where
  set_id : Nat
  acvm_def : String
  gax_policies : String
  optimization_target : Nat  -- u8
deriving DecidableEq, Repr

/-- `ConstraintCompilerDaemon::run`: consumes commands in order; each is
compiled through `compile_constraints` at the hard-coded `version = 2`
(source comment: "Incremental versioning logic here"); only successful
blocks are sent to the scheduler handle, failures are logged and dropped. -/
def ConstraintCompilerDaemon.run (commands : List CompilerCommand) :
    List (Nat × CompiledConstraintBlock) :=
  match commands with
  | [] => []
  | command :: rest =>
      match compile_constraints command.acvm_def command.gax_policies 2 with
      | .ok block => (command.set_id, block) :: ConstraintCompilerDaemon.run rest
      | .error _ => ConstraintCompilerDaemon.run rest

end Compiler

namespace Halt

/-- `HaltError` from fsmu_halt_orchestrator.rs. -/
inductive HaltError where
  | IsolationFailed (msg : String)
  | ForensicsFailed (msg : String)
  | SanitizationFailed (msg : String)
  | Timeout (total_ms : Nat)
deriving DecidableEq, Repr

/-- The `thiserror` `Display` strings of `HaltError` (`e.to_string()`). -/
def HaltError.toDisplay : HaltError → String
  | .IsolationFailed m => "Isolation phase failed: " ++ m
  | .ForensicsFailed m => "Forensics collection failed: " ++ m
  | .SanitizationFailed m => "Memory sanitization failed: " ++ m
  | .Timeout t =>
      "The overall halt sequence timed out after " ++ toString t ++ "ms."

/-- `HaltContextConfig`. -/
structure HaltContextConfig where
  isolation_sla_ms : Nat   -- u64
  total_timeout_ms : Nat   -- u64
deriving DecidableEq, Repr

/-- `FSMUHaltPolicy`. -/
structure FSMUHaltPolicy where
  policy_id : String
  halt_context : HaltContextConfig
deriving DecidableEq, Repr

/-- One observable call on the injected `SystemLogger`. -/
inductive LogEvent where
  | info (message : String)
  | violation (policy_id component : String) (duration_ms : Nat)
deriving DecidableEq, Repr

/-- Whether a log event is a `record_violation` call. -/
def LogEvent.isViolation : LogEvent → Bool
  | .info _ => false
  | .violation _ _ _ => true

/-- Environment of one halt-sequence run: the outcomes of the injected
`HaltAgent` calls, the wall-clock readings, and the outcome of the race
against `total_timeout_ms`.  `times_out` is true when `run_sequence_internal`
does not finish inside the tokio timeout; `timeout_log_cut` is how many of
the internal log events had happened at the moment of the cut. -/
structure HaltEnv where
  isolation : Except HaltError Unit
  sanitization : Except HaltError Unit
  forensics : Except HaltError Unit
  isolation_elapsed_ms : Nat
  sequence_elapsed_ms : Nat
  times_out : Bool
  timeout_log_cut : Nat

/-- Debug rendering (`{:?}`) of a `HaltError`, used in one log line. -/
def HaltError.toDebug : HaltError → String
  | .IsolationFailed m => "IsolationFailed(" ++ m ++ ")"
  | .ForensicsFailed m => "ForensicsFailed(" ++ m ++ ")"
  | .SanitizationFailed m => "SanitizationFailed(" ++ m ++ ")"
  | .Timeout t => "Timeout(" ++ toString t ++ ")"

/-- `run_sequence_internal`: isolation first (a failure is logged and
propagated as-is); then the isolation duration is checked against the SLA —
a breach calls `record_violation(policy_id, "Isolation", duration)`, advisory
only; then sanitization and forensics run concurrently (`tokio::join!` —
both outcomes are available before either is inspected) and are checked in
that fixed order, wrapped into `SanitizationFailed` / `ForensicsFailed`.
Returns the result together with the logger calls in order. -/
def run_sequence_internal (p : FSMUHaltPolicy) (env : HaltEnv) :
    Except HaltError Unit × List LogEvent :=
  match env.isolation with
  | .error e =>
      (.error e, [.info ("Isolation mandate failed: " ++ e.toDebug)])
  | .ok _ =>
    let isolation_duration := env.isolation_elapsed_ms
    let isolation_sla := p.halt_context.isolation_sla_ms
    let slaLog :=
      if isolation_duration > isolation_sla then
        [LogEvent.violation p.policy_id "Isolation" isolation_duration]
      else
        [LogEvent.info ("Isolation complete in " ++ toString isolation_duration
          ++ "ms (SLA: " ++ toString isolation_sla ++ "ms)")]
    let sanitization_result := env.sanitization
    let forensics_result := env.forensics
    match sanitization_result with
    | .error e => (.error (.SanitizationFailed e.toDisplay), slaLog)
    | .ok _ =>
      match forensics_result with
      | .error e => (.error (.ForensicsFailed e.toDisplay), slaLog)
      | .ok _ =>
          (.ok (),
           slaLog ++ [LogEvent.info
             ("Halt sequence successfully completed in total duration: "
               ++ toString env.sequence_elapsed_ms ++ "ms.")])

/-- `execute_halt_sequence`: logs the start, races
`run_sequence_internal` against `total_timeout_ms`; on a timeout the
sequence's pending work is abandoned (only the log prefix up to the cut has
happened) and the result is `Timeout(total_timeout_ms)`. -/
def execute_halt_sequence (p : FSMUHaltPolicy) (env : HaltEnv) :
    Except HaltError Unit × List LogEvent :=
  let startLog := LogEvent.info ("Starting halt sequence (Total Timeout: "
    ++ toString p.halt_context.total_timeout_ms ++ "ms)")
  let inner := run_sequence_internal p env
  if env.times_out then
    (.error (.Timeout p.halt_context.total_timeout_ms),
     startLog :: (inner.2.take env.timeout_log_cut
       ++ [.info "Halt sequence exceeded total system timeout."]))
  else
    (inner.1, startLog :: inner.2)

end Halt

/-! ## Helper lemmas and sample values -/

namespace ASG

/-- The canonical metadata layout as the spec's sentences order it:
timestamp (8) ‖ context flags (4) ‖ version (2) ‖ protocol id (1) ‖
payload size (8), little-endian throughout.  Written from the spec's words
only, for comparison against `RscmPackageMetadata.to_canonical_bytes`
(which is translated from the source). -/
def specClaimedCanonicalBytes (m : RscmPackageMetadata) : List Nat :=
  leBytes 8 m.absolute_capture_ts_epoch_ns ++
  leBytes 4 m.context_flags ++
  leBytes 2 m.capture_version ++
  leBytes 1 m.hashing_protocol_id ++
  leBytes 8 m.volatile_data_size

theorem leBytes_length (width n : Nat) : (leBytes width n).length = width := by
  simp [leBytes]

/-- `to_canonical_bytes` always succeeds and emits the source's order:
version (2) ‖ timestamp (8) ‖ flags (4) ‖ protocol id (1) ‖ size (8). -/
theorem to_canonical_bytes_ok (m : RscmPackageMetadata) :
    m.to_canonical_bytes = .ok
      (leBytes 2 m.capture_version ++
       leBytes 8 m.absolute_capture_ts_epoch_ns ++
       leBytes 4 m.context_flags ++
       leBytes 1 m.hashing_protocol_id ++
       leBytes 8 m.volatile_data_size) := by
  simp [RscmPackageMetadata.to_canonical_bytes, leBytes_length]

end ASG

namespace DCS

/-- `initializeScheduler` always succeeds: the built-in definitions are
non-empty, so it yields the version-1 block cached and active. -/
theorem initializeScheduler_eq (id : Nat) :
    initializeScheduler id =
      .ok { active_set_id := id
            constraint_cache := [(id, ⟨1, [], []⟩)]
            active_block_ref := ⟨1, [], []⟩ } := rfl

/-- The cache invariant of the scheduler state as §3 states it: the active
reference points to a block present in the cache, or is a version-0
bootstrap block. -/
def SchedulerInvariant (s : DynamicConstraintScheduler) : Prop :=
  (∃ p ∈ s.constraint_cache, p.2 = s.active_block_ref) ∨
  s.active_block_ref.compilation_version = 0

instance (s : DynamicConstraintScheduler) : Decidable (SchedulerInvariant s) := by
  unfold SchedulerInvariant; infer_instance

theorem cacheLookup_mem {l : List (Nat × CompiledConstraintBlock)} {id : Nat}
    {b : CompiledConstraintBlock} (h : cacheLookup l id = some b) :
    (id, b) ∈ l := by
  induction l with
  | nil => simp [cacheLookup] at h
  | cons p rest ih =>
      obtain ⟨k, v⟩ := p
      simp only [cacheLookup] at h
      split at h
      · rename_i hk
        cases h
        subst hk
        exact List.mem_cons_self _ _
      · exact List.mem_cons_of_mem _ (ih h)

theorem cacheInsert_mem_of_ne {l : List (Nat × CompiledConstraintBlock)}
    {p : Nat × CompiledConstraintBlock} {id : Nat}
    {b : CompiledConstraintBlock} (hp : p ∈ l) (hne : p.1 ≠ id) :
    p ∈ cacheInsert l id b := by
  induction l with
  | nil => simp at hp
  | cons q rest ih =>
      obtain ⟨k, v⟩ := q
      simp only [cacheInsert]
      rcases List.mem_cons.mp hp with hhead | htail
      · subst hhead
        rw [if_neg (by simpa using hne)]
        exact List.mem_cons_self _ _
      · split
        · exact List.mem_cons_of_mem _ htail
        · exact List.mem_cons_of_mem _ (ih htail)

/-- A sample compiled block with version 1 (the block `initializeScheduler`
builds). -/
def sampleBlock1 : CompiledConstraintBlock := ⟨1, [], []⟩

/-- A sample compiled block with version 7. -/
def sampleBlock7 : CompiledConstraintBlock := ⟨7, [], []⟩

/-- The scheduler state right after `initializeScheduler 1`. -/
def sampleScheduler : DynamicConstraintScheduler :=
  { active_set_id := 1
    constraint_cache := [(1, sampleBlock1)]
    active_block_ref := sampleBlock1 }

end DCS

namespace ASG

/-- A sample capture environment: privileged, empty dump and trace, a hasher
that emits 64 zero bytes, zero elapsed time. -/
def sampleEnv : CaptureEnv :=
  { check_privilege := true
    current_epoch_ns := 0
    volatile_memory := .ok []
    execution_stack := []
    hasher_init_ok := true
    hash := fun _ => .ok (List.replicate 64 0)
    elapsed_ns := 0 }

/-- The package `generate_rscm_snapshot` produces in `sampleEnv`. -/
def samplePackage : RscmPackage :=
  { capture_version := 1
    absolute_capture_ts_epoch_ns := 0
    capture_latency_ns := 0
    integrity_hash := List.replicate 64 0
    volatile_memory_dump := []
    stack_trace := []
    context_flags := 0x42
    hashing_protocol_id := 1
    volatile_data_size := 0 }

/-- `sampleEnv`, but the measured elapsed time is 6 ms (over the 5 ms
budget). -/
def slowEnv : CaptureEnv :=
  { sampleEnv with elapsed_ns := 6000000 }

end ASG

/-! ## Claims -/

/-- C2: the claim orders the canonical metadata block as timestamp ‖ flags ‖
version ‖ protocol id ‖ size; the source serializes the version first.  At
the concrete metadata (version 3, timestamp 1, flags 2, protocol 4, size 5)
the two layouts differ, so the claimed layout is not the one hashed. -/
theorem canonical_layout_counterexample :
    ASG.RscmPackageMetadata.to_canonical_bytes ⟨3, 1, 2, 4, 5⟩ ≠
      .ok (ASG.specClaimedCanonicalBytes ⟨3, 1, 2, 4, 5⟩) := by
  decide

/-- C2 (amended): the canonical metadata block hashed by the snapshot
generator is laid out little-endian in the fixed order version (2 bytes) ‖
timestamp (8 bytes) ‖ context flags (4 bytes) ‖ protocol id (1 byte) ‖
payload size (8 bytes), for every metadata record. -/
theorem canonical_layout (m : ASG.RscmPackageMetadata) :
    m.to_canonical_bytes = .ok
      (ASG.leBytes 2 m.capture_version ++
       ASG.leBytes 8 m.absolute_capture_ts_epoch_ns ++
       ASG.leBytes 4 m.context_flags ++
       ASG.leBytes 1 m.hashing_protocol_id ++
       ASG.leBytes 8 m.volatile_data_size) :=
  ASG.to_canonical_bytes_ok m

/-- C4: the background compilers never increase `compilation_version`: the
engine loop emits the literal version 3 and the daemon loop the literal
version 2 on every compilation, so two successive compilations of the same
constraint set (id 7 here) carry equal versions instead of strictly
increasing ones. -/
theorem compiler_version_constant :
    Compiler.CompilerEngine.run
        [.CompileDefinition 7 "acvm_ir_first" "gax_first",
         .CompileDefinition 7 "acvm_ir_second" "gax_second"] =
      [(7, .ok ⟨3, [], []⟩), (7, .ok ⟨3, [], []⟩)] ∧
    Compiler.ConstraintCompilerDaemon.run
        [⟨7, "acvm_def_first", "gax_first", 0⟩,
         ⟨7, "acvm_def_second", "gax_second", 0⟩] =
      [(7, ⟨2, [], []⟩), (7, ⟨2, [], []⟩)] := by
  exact ⟨rfl, rfl⟩

/-- C7: `switch_active_set` on an id missing from the cache returns
`MissingActiveSet` and returns the state unchanged (same active id, same
active reference, same cache); on a cached id it succeeds and the active
reference becomes exactly the cached block. -/
theorem switch_active_set_spec :
    (∀ (s : DCS.DynamicConstraintScheduler) (id : Nat),
       DCS.cacheLookup s.constraint_cache id = none →
       DCS.switch_active_set s id = (s, .error .MissingActiveSet)) ∧
    (∀ (s : DCS.DynamicConstraintScheduler) (id : Nat)
       (b : DCS.CompiledConstraintBlock),
       DCS.cacheLookup s.constraint_cache id = some b →
       DCS.switch_active_set s id =
         ({ s with active_set_id := id, active_block_ref := b }, .ok ())) := by
  constructor
  · intro s id h
    simp [DCS.switch_active_set, h]
  · intro s id b h
    simp [DCS.switch_active_set, h]

/-- C7 witness: on the initialized sample state, switching to the uncached
id 2 fails and leaves the state intact; switching to the cached id 1
succeeds. -/
theorem switch_active_set_spec_witness :
    DCS.switch_active_set DCS.sampleScheduler 2 =
      (DCS.sampleScheduler, .error .MissingActiveSet) ∧
    DCS.switch_active_set DCS.sampleScheduler 1 =
      ({ DCS.sampleScheduler with
           active_set_id := 1, active_block_ref := DCS.sampleBlock1 }, .ok ()) :=
  ⟨switch_active_set_spec.1 DCS.sampleScheduler 2 (by decide),
   switch_active_set_spec.2 DCS.sampleScheduler 1 DCS.sampleBlock1 (by decide)⟩

/-- C8: whenever the active block has `compilation_version = 0`, the
integrity sweep returns `PolicyViolation` on every input snapshot
(fail-closed). -/
theorem integrity_sweep_fail_closed
    (s : DCS.DynamicConstraintScheduler) (snapshot : List Nat)
    (h : s.active_block_ref.compilation_version = 0) :
    DCS.execute_s02_s06_integrity_sweep s snapshot =
      .error ⟨"Constraint integrity check failed (Version 0)."⟩ := by
  simp [DCS.execute_s02_s06_integrity_sweep, DCS.active_constraints, h]

/-- C8 witness: the sweep rejects a concrete state holding a version-0
bootstrap block. -/
theorem integrity_sweep_fail_closed_witness :
    DCS.execute_s02_s06_integrity_sweep ⟨1, [], ⟨0, [], []⟩⟩ [0, 1, 2] =
      .error ⟨"Constraint integrity check failed (Version 0)."⟩ :=
  integrity_sweep_fail_closed ⟨1, [], ⟨0, [], []⟩⟩ [0, 1, 2] rfl

/-- C5: the claimed invariant is not preserved by every operation.  Starting
from the state `initialize(1)` produces, a single
`inject_compiled_set(1, block-version-7)` overwrites the active set's cache
entry: the active reference still points at the old version-1 block, which
is no longer in the cache and is not a version-0 bootstrap block. -/
theorem scheduler_invariant_counterexample :
    DCS.initializeScheduler 1 = .ok DCS.sampleScheduler ∧
    DCS.SchedulerInvariant DCS.sampleScheduler ∧
    ¬ DCS.SchedulerInvariant
        (DCS.inject_compiled_set DCS.sampleScheduler 1 DCS.sampleBlock7) := by
  refine ⟨rfl, by decide, by decide⟩

/-- C5 (amended): the invariant — the active reference points to a block
present in the cache, or is a version-0 bootstrap block — is established by
`initialize` and preserved by `switch_active_set` (success or failure); it
is preserved by `inject_compiled_set(id, b)` provided the active block also
sits in the cache under some key other than `id` (or is version 0);
injecting over the active block's only cache entry can break it. -/
theorem scheduler_invariant_preserved :
    (∀ (id : Nat) (s : DCS.DynamicConstraintScheduler),
       DCS.initializeScheduler id = .ok s → DCS.SchedulerInvariant s) ∧
    (∀ (s : DCS.DynamicConstraintScheduler) (id : Nat),
       DCS.SchedulerInvariant s →
       DCS.SchedulerInvariant (DCS.switch_active_set s id).1) ∧
    (∀ (s : DCS.DynamicConstraintScheduler) (id : Nat)
       (b : DCS.CompiledConstraintBlock),
       DCS.SchedulerInvariant s →
       ((∃ p ∈ s.constraint_cache, p.2 = s.active_block_ref ∧ p.1 ≠ id) ∨
         s.active_block_ref.compilation_version = 0) →
       DCS.SchedulerInvariant (DCS.inject_compiled_set s id b)) := by
  refine ⟨?_, ?_, ?_⟩
  · intro id s h
    rw [DCS.initializeScheduler_eq] at h
    cases h
    exact Or.inl ⟨(id, ⟨1, [], []⟩), by simp, rfl⟩
  · intro s id _hinv
    cases hl : DCS.cacheLookup s.constraint_cache id with
    | none =>
        simpa [DCS.switch_active_set, hl] using _hinv
    | some b =>
        simp only [DCS.switch_active_set, hl]
        exact Or.inl ⟨(id, b), DCS.cacheLookup_mem hl, rfl⟩
  · intro s id b _hinv hside
    rcases hside with ⟨p, hp, hpb, hpk⟩ | hv0
    · exact Or.inl ⟨p, DCS.cacheInsert_mem_of_ne hp hpk, hpb⟩
    · exact Or.inr hv0

/-- C5 witness: concretely, the invariant holds after `initialize(1)`, after
a failed switch to id 2, and after injecting a version-7 block under the
fresh id 2 (the active block stays cached under id 1). -/
theorem scheduler_invariant_preserved_witness :
    DCS.SchedulerInvariant DCS.sampleScheduler ∧
    DCS.SchedulerInvariant (DCS.switch_active_set DCS.sampleScheduler 2).1 ∧
    DCS.SchedulerInvariant
      (DCS.inject_compiled_set DCS.sampleScheduler 2 DCS.sampleBlock7) :=
  ⟨scheduler_invariant_preserved.1 1 DCS.sampleScheduler rfl,
   scheduler_invariant_preserved.2.1 DCS.sampleScheduler 2 (by decide),
   scheduler_invariant_preserved.2.2 DCS.sampleScheduler 2 DCS.sampleBlock7
     (by decide) (by decide)⟩

/-- C6: in phase 2 both outcomes are available (the `tokio::join!` joins the
two concurrent calls) before either is inspected, and each failure surfaces
under its own kind: if sanitization fails the sequence fails
`SanitizationFailed` with that error's display text — also when forensics
failed too (sanitization is checked first) — and if only forensics fails it
fails `ForensicsFailed`. -/
theorem halt_phase2_error_kinds (p : Halt.FSMUHaltPolicy) (env : Halt.HaltEnv)
    (hiso : env.isolation = .ok ()) :
    (∀ es ef, env.sanitization = .error es → env.forensics = .error ef →
       (Halt.run_sequence_internal p env).1 =
         .error (.SanitizationFailed es.toDisplay)) ∧
    (∀ es, env.sanitization = .error es → env.forensics = .ok () →
       (Halt.run_sequence_internal p env).1 =
         .error (.SanitizationFailed es.toDisplay)) ∧
    (∀ ef, env.sanitization = .ok () → env.forensics = .error ef →
       (Halt.run_sequence_internal p env).1 =
         .error (.ForensicsFailed ef.toDisplay)) := by
  refine ⟨?_, ?_, ?_⟩
  · intro es ef hs hf
    simp [Halt.run_sequence_internal, hiso, hs, hf]
  · intro es hs hf
    simp [Halt.run_sequence_internal, hiso, hs, hf]
  · intro ef hs hf
    simp [Halt.run_sequence_internal, hiso, hs, hf]

/-- C6 witness: with both phase-2 operations failing concretely, the
sequence reports `SanitizationFailed`; with only forensics failing it
reports `ForensicsFailed`. -/
theorem halt_phase2_error_kinds_witness :
    (Halt.run_sequence_internal ⟨"P-9", ⟨10, 100⟩⟩
        ⟨.ok (), .error (.SanitizationFailed "wipe interrupted"),
         .error (.ForensicsFailed "upload refused"), 3, 9, false, 0⟩).1 =
      .error (.SanitizationFailed
        (Halt.HaltError.toDisplay (.SanitizationFailed "wipe interrupted"))) ∧
    (Halt.run_sequence_internal ⟨"P-9", ⟨10, 100⟩⟩
        ⟨.ok (), .ok (),
         .error (.ForensicsFailed "upload refused"), 3, 9, false, 0⟩).1 =
      .error (.ForensicsFailed
        (Halt.HaltError.toDisplay (.ForensicsFailed "upload refused"))) :=
  ⟨(halt_phase2_error_kinds ⟨"P-9", ⟨10, 100⟩⟩
      ⟨.ok (), .error (.SanitizationFailed "wipe interrupted"),
       .error (.ForensicsFailed "upload refused"), 3, 9, false, 0⟩ rfl).1
      _ _ rfl rfl,
   (halt_phase2_error_kinds ⟨"P-9", ⟨10, 100⟩⟩
      ⟨.ok (), .ok (),
       .error (.ForensicsFailed "upload refused"), 3, 9, false, 0⟩ rfl).2.2
      _ rfl rfl⟩

/-- C9: when isolation succeeds but its measured duration exceeds
`isolation_sla_ms`, the later phases succeed and the total timeout is not
hit, the whole sequence reports success and the log holds exactly one
`record_violation` call — with the policy id, component "Isolation" and the
measured duration. -/
theorem halt_isolation_sla_advisory (p : Halt.FSMUHaltPolicy)
    (env : Halt.HaltEnv)
    (hiso : env.isolation = .ok ())
    (hsla : env.isolation_elapsed_ms > p.halt_context.isolation_sla_ms)
    (hs : env.sanitization = .ok ())
    (hf : env.forensics = .ok ())
    (ht : env.times_out = false) :
    (Halt.execute_halt_sequence p env).1 = .ok () ∧
    (Halt.execute_halt_sequence p env).2.filter (fun e => e.isViolation) =
      [Halt.LogEvent.violation p.policy_id "Isolation"
        env.isolation_elapsed_ms] := by
  constructor
  · simp [Halt.execute_halt_sequence, Halt.run_sequence_internal,
      hiso, hs, hf, ht]
  · simp [Halt.execute_halt_sequence, Halt.run_sequence_internal,
      hiso, hs, hf, ht, hsla, Halt.LogEvent.isViolation]

/-- C9 witness: a concrete run whose isolation took 25 ms against a 10 ms
SLA, with every phase succeeding, still succeeds and logs exactly the one
violation record. -/
theorem halt_isolation_sla_advisory_witness :
    (Halt.execute_halt_sequence ⟨"P-9", ⟨10, 100⟩⟩
        ⟨.ok (), .ok (), .ok (), 25, 40, false, 0⟩).1 = .ok () ∧
    (Halt.execute_halt_sequence ⟨"P-9", ⟨10, 100⟩⟩
        ⟨.ok (), .ok (), .ok (), 25, 40, false, 0⟩).2.filter
          (fun e => e.isViolation) =
      [Halt.LogEvent.violation "P-9" "Isolation" 25] :=
  halt_isolation_sla_advisory ⟨"P-9", ⟨10, 100⟩⟩
    ⟨.ok (), .ok (), .ok (), 25, 40, false, 0⟩ rfl (by decide) rfl rfl rfl

/-- C10: a successful `initialize(id)` yields a scheduler whose active id is
`id`, whose cache maps `id` to the active block, and whose active block has
`compilation_version` 1, so an immediate integrity sweep always passes. -/
theorem initializeScheduler_spec (id : Nat) (s : DCS.DynamicConstraintScheduler)
    (h : DCS.initializeScheduler id = .ok s) :
    s.active_set_id = id ∧
    DCS.cacheLookup s.constraint_cache id = some s.active_block_ref ∧
    s.active_block_ref.compilation_version = 1 ∧
    ∀ snapshot, DCS.execute_s02_s06_integrity_sweep s snapshot = .ok () := by
  rw [DCS.initializeScheduler_eq] at h
  cases h
  refine ⟨rfl, by simp [DCS.cacheLookup], rfl, ?_⟩
  intro snapshot
  simp [DCS.execute_s02_s06_integrity_sweep, DCS.active_constraints]

/-- C10 witness: initializing with id 5 gives active id 5, the cached
version-1 active block, and a passing sweep. -/
theorem initializeScheduler_spec_witness :
    (⟨5, [(5, ⟨1, [], []⟩)], ⟨1, [], []⟩⟩ :
        DCS.DynamicConstraintScheduler).active_set_id = 5 ∧
    DCS.cacheLookup [(5, ⟨1, [], []⟩)] 5 =
      some (⟨5, [(5, ⟨1, [], []⟩)], ⟨1, [], []⟩⟩ :
        DCS.DynamicConstraintScheduler).active_block_ref ∧
    (⟨5, [(5, ⟨1, [], []⟩)], ⟨1, [], []⟩⟩ :
        DCS.DynamicConstraintScheduler).active_block_ref.compilation_version = 1 ∧
    ∀ snapshot, DCS.execute_s02_s06_integrity_sweep
      ⟨5, [(5, ⟨1, [], []⟩)], ⟨1, [], []⟩⟩ snapshot = .ok () :=
  initializeScheduler_spec 5 _ rfl

/-- C1: for every environment in which `generate_rscm_snapshot` returns a
package, the package's `integrity_hash` is the configured 64-byte output of
the hasher fed, in that fixed order, the volatile memory dump, the stack
trace bytes, and the canonical metadata bytes; recomputing the hash over the
stored fields in the canonical order reproduces `integrity_hash` exactly. -/
theorem snapshot_hash_recompute (env : ASG.CaptureEnv) (pkg : ASG.RscmPackage)
    (h : ASG.generate_rscm_snapshot env = .ok pkg) :
    pkg.integrity_hash.length = ASG.INTEGRITY_HASH_SIZE ∧
    ∃ mb, (ASG.RscmPackageMetadata.mk pkg.capture_version
        pkg.absolute_capture_ts_epoch_ns pkg.context_flags
        pkg.hashing_protocol_id pkg.volatile_data_size).to_canonical_bytes =
          .ok mb ∧
      env.hash (pkg.volatile_memory_dump ++ pkg.stack_trace ++ mb) =
        .ok pkg.integrity_hash := by
  cases hpriv : env.check_privilege with
  | false => simp [ASG.generate_rscm_snapshot, hpriv] at h
  | true =>
    cases hvm : env.volatile_memory with
    | error e => simp [ASG.generate_rscm_snapshot, hpriv, hvm] at h
    | ok vm =>
      cases hinit : env.hasher_init_ok with
      | false => simp [ASG.generate_rscm_snapshot, hpriv, hvm, hinit] at h
      | true =>
        simp only [ASG.generate_rscm_snapshot, hpriv, hvm, hinit,
          ASG.to_canonical_bytes_ok, Bool.true_eq_false, if_false] at h
        cases hh : env.hash (vm ++ env.execution_stack ++
            (ASG.leBytes 2 ASG.RSCM_PACKAGE_VERSION ++
             ASG.leBytes 8 env.current_epoch_ns ++
             ASG.leBytes 4 ASG.CONTEXT_FLAG_GSEP_C ++
             ASG.leBytes 1 ASG.HASHING_PROTOCOL_ID ++
             ASG.leBytes 8 vm.length)) with
        | error u =>
          simp only [hh] at h
          exact Except.noConfusion h
        | ok raw =>
          simp only [hh] at h
          by_cases hlen : raw.length = ASG.INTEGRITY_HASH_SIZE
          · rw [if_neg (by simp [hlen])] at h
            by_cases htime : env.elapsed_ns > ASG.MAX_SNAPSHOT_DURATION_NS
            · rw [if_pos htime] at h
              exact Except.noConfusion h
            · rw [if_neg htime] at h
              have hpkg := Except.ok.inj h
              subst hpkg
              exact ⟨hlen, _, ASG.to_canonical_bytes_ok _, hh⟩
          · rw [if_pos (by simp [hlen])] at h
            exact Except.noConfusion h

/-- C1 witness: the sample run succeeds and its stored hash is reproduced by
rehashing the stored dump, trace and canonical metadata. -/
theorem snapshot_hash_recompute_witness :
    ASG.samplePackage.integrity_hash.length = ASG.INTEGRITY_HASH_SIZE ∧
    ∃ mb, (ASG.RscmPackageMetadata.mk ASG.samplePackage.capture_version
        ASG.samplePackage.absolute_capture_ts_epoch_ns
        ASG.samplePackage.context_flags
        ASG.samplePackage.hashing_protocol_id
        ASG.samplePackage.volatile_data_size).to_canonical_bytes = .ok mb ∧
      ASG.sampleEnv.hash (ASG.samplePackage.volatile_memory_dump ++
        ASG.samplePackage.stack_trace ++ mb) =
          .ok ASG.samplePackage.integrity_hash :=
  snapshot_hash_recompute ASG.sampleEnv ASG.samplePackage (by decide)

/-- C3: a run whose measured duration exceeds 5 ms never returns a package
(whatever the capture and hashing outcomes were), and when every prior step
succeeded — privilege granted, memory captured, hasher built, finalize
yielding the configured 64 bytes — the result is exactly
`Timeout` carrying the measured duration in nanoseconds (as a u64). -/
theorem snapshot_timeout (env : ASG.CaptureEnv)
    (hel : env.elapsed_ns > ASG.MAX_SNAPSHOT_DURATION_NS) :
    (∀ pkg, ASG.generate_rscm_snapshot env ≠ .ok pkg) ∧
    (∀ vm raw, env.check_privilege = true →
       env.volatile_memory = .ok vm →
       env.hasher_init_ok = true →
       env.hash (vm ++ env.execution_stack ++
         (ASG.leBytes 2 ASG.RSCM_PACKAGE_VERSION ++
          ASG.leBytes 8 env.current_epoch_ns ++
          ASG.leBytes 4 ASG.CONTEXT_FLAG_GSEP_C ++
          ASG.leBytes 1 ASG.HASHING_PROTOCOL_ID ++
          ASG.leBytes 8 vm.length)) = .ok raw →
       raw.length = ASG.INTEGRITY_HASH_SIZE →
       ASG.generate_rscm_snapshot env =
         .error (.Timeout (env.elapsed_ns % 2 ^ 64))) := by
  constructor
  · intro pkg h
    cases hpriv : env.check_privilege with
    | false => simp [ASG.generate_rscm_snapshot, hpriv] at h
    | true =>
      cases hvm : env.volatile_memory with
      | error e => simp [ASG.generate_rscm_snapshot, hpriv, hvm] at h
      | ok vm =>
        cases hinit : env.hasher_init_ok with
        | false => simp [ASG.generate_rscm_snapshot, hpriv, hvm, hinit] at h
        | true =>
          simp only [ASG.generate_rscm_snapshot, hpriv, hvm, hinit,
            ASG.to_canonical_bytes_ok, Bool.true_eq_false, if_false] at h
          cases hh : env.hash (vm ++ env.execution_stack ++
              (ASG.leBytes 2 ASG.RSCM_PACKAGE_VERSION ++
               ASG.leBytes 8 env.current_epoch_ns ++
               ASG.leBytes 4 ASG.CONTEXT_FLAG_GSEP_C ++
               ASG.leBytes 1 ASG.HASHING_PROTOCOL_ID ++
               ASG.leBytes 8 vm.length)) with
          | error u =>
            simp only [hh] at h
            exact Except.noConfusion h
          | ok raw =>
            simp only [hh] at h
            by_cases hlen : raw.length = ASG.INTEGRITY_HASH_SIZE
            · rw [if_neg (by simp [hlen]), if_pos hel] at h
              exact Except.noConfusion h
            · rw [if_pos (by simp [hlen])] at h
              exact Except.noConfusion h
  · intro vm raw hpriv hvm hinit hh hlen
    simp only [ASG.generate_rscm_snapshot, hpriv, hvm, hinit,
      ASG.to_canonical_bytes_ok, Bool.true_eq_false, if_false, hh]
    rw [if_neg (by simp [hlen]), if_pos hel]

/-- C3 witness: at 6 ms measured duration the otherwise-valid sample run is
discarded — it is not a package, and is exactly `Timeout` with the actual
nanosecond count. -/
theorem snapshot_timeout_witness :
    ASG.generate_rscm_snapshot ASG.slowEnv ≠ .ok ASG.samplePackage ∧
    ASG.generate_rscm_snapshot ASG.slowEnv =
      .error (.Timeout (6000000 % 2 ^ 64)) :=
  ⟨(snapshot_timeout ASG.slowEnv (by decide)).1 ASG.samplePackage,
   (snapshot_timeout ASG.slowEnv (by decide)).2 [] (List.replicate 64 0)
     rfl rfl rfl rfl (by decide)⟩
